import Mathlib

/-
Verification of the fs-pach commit-oriented virtual filesystem core
(src/fs_pach/_pachfs.py) against its natural-language specification.

The embedding models Python strings as lists of characters (`PyStr`), the
Pachyderm backend client as a record of response functions (`Backend`), and
every filesystem operation as a pure function returning the operation result
(an `Except` over the uniform error taxonomy) together with the list of
backend calls it performed, in order.  Paths, keys and the path/key codec
are translated directly from `_pachfs.py` and from the `fs.path` helpers it
calls (`normpath`, `relpath`, `abspath`, `forcedir`, `dirname`, `basename`).
-/

deriving instance DecidableEq for Except

/-- A Python string, modelled as its list of characters. -/
abbrev PyStr := List Char

/-- Build a `PyStr` from a Lean string literal. -/
def pstr (s : String) : PyStr := s.toList

/-- Python `s.lstrip(chars)`: drop leading characters that belong to `chars`. -/
def lstripSet (chars s : PyStr) : PyStr := s.dropWhile (fun c => chars.contains c)

/-- Python `s.rstrip(chars)`: drop trailing characters that belong to `chars`. -/
def rstripSet (chars s : PyStr) : PyStr := (s.reverse.dropWhile (fun c => chars.contains c)).reverse

/-- Fuel-driven worker for Python `str.replace` with a nonempty pattern:
scan left to right, replacing each nonoverlapping occurrence of `p` by `r`. -/
def replFuel : Nat → PyStr → PyStr → PyStr → PyStr
  | 0, s, _, _ => s
  | _ + 1, [], _, _ => []
  | fuel + 1, c :: rest, p, r =>
    if p.isPrefixOf (c :: rest) then r ++ replFuel fuel ((c :: rest).drop p.length) p r
    else c :: replFuel fuel rest p r

/-- Python `s.replace(p, r)` for a nonempty pattern `p` (every use in the
source replaces a nonempty delimiter; for `p = []` we return `s` unchanged). -/
def pyReplace (s p r : PyStr) : PyStr := if p = [] then s else replFuel s.length s p r

/-- fs.path.relpath: `path.lstrip("/")`. -/
def relpath (p : PyStr) : PyStr := p.dropWhile (fun c => c = '/')

/-- fs.path.abspath (with cwd `/`): prepend `/` unless already absolute. -/
def abspath (p : PyStr) : PyStr := if p.head? = some '/' then p else '/' :: p

/-- fs.path.forcedir: append a trailing `/` unless one is already present. -/
def forcedir (p : PyStr) : PyStr := if p.getLast? = some '/' then p else p ++ ['/']

/-- fs.path.dirname: everything before the last `/` (or `""` when there is no
`/`, or `"/"` when that part would be empty). -/
def dirname (p : PyStr) : PyStr :=
  if p.contains '/' then
    let pre := ((p.reverse.dropWhile (fun c => c ≠ '/')).tail).reverse
    if pre = [] then ['/'] else pre
  else []

/-- fs.path.basename: everything after the last `/`. -/
def basename (p : PyStr) : PyStr := (p.reverse.takeWhile (fun c => c ≠ '/')).reverse

/-- The component pass of fs.path.normpath: skip empty and `.` segments, let
`..` pop the previously accepted segment, and fail (`none`, Python
`IllegalBackReference`) when there is nothing to pop.  `acc` holds the
accepted segments in reverse order. -/
def normSegs : List PyStr → List PyStr → Option (List PyStr)
  | acc, [] => some acc.reverse
  | acc, seg :: rest =>
    if seg = [] ∨ seg = ['.'] then normSegs acc rest
    else if seg = ['.', '.'] then
      match acc with
      | [] => none
      | _ :: accTail => normSegs accTail rest
    else normSegs (seg :: acc) rest

/-- fs.path.normpath: split on `/`, process the segments, and rejoin,
keeping a leading `/` when the input was absolute.  `none` models the
`IllegalBackReference` exception. -/
def normpath (p : PyStr) : Option PyStr :=
  (normSegs [] (p.splitOn '/')).map fun comps =>
    (if p.head? = some '/' then ['/'] else []) ++ List.intercalate ['/'] comps

/-- What `pacherrors` reads off a `pachyderm_sdk` RpcError: the
`response["Error"]["Code"]` field and the HTTP status from the response
metadata (defaulting to 200 when absent, as `.get` does). -/
structure RpcResponse where
  errorCode : Option PyStr
  httpStatus : Nat
  deriving DecidableEq, Repr

/-- A failure raised by the backend client: either an `RpcError` carrying a
status/code pair, or any other exception. -/
inductive BackendExc where
  | rpc (r : RpcResponse)
  | generic (msg : PyStr)
  deriving DecidableEq, Repr

/-- The uniform error taxonomy of the core, together with the Python-level
failures the source can raise (`TypeError`, `IllegalBackReference`,
`AttributeError` on `None`) and untranslated backend errors escaping from
operations that do not wrap their backend calls in `pacherrors`. -/
inductive FsError where
  | resourceError (path : PyStr)
  | resourceNotFound (path : PyStr)
  | permissionDenied (path : PyStr)
  | operationFailed (path : PyStr)
  | remoteConnectionError (path : PyStr)
  | directoryExpected (path : PyStr)
  | directoryExists (path : PyStr)
  | directoryNotEmpty (path : PyStr)
  | fileExists (path : PyStr)
  | fileExpected (path : PyStr)
  | removeRootError
  | invalidCharsInPath (path : PyStr)
  | illegalBackReference (path : PyStr)
  | typeError (msg : PyStr)
  | attributeErrorNone
  | rawBackend (e : BackendExc)
  deriving DecidableEq, Repr

/-- FS.validatepath from the fs library base class: reject the invalid
character `\0`, then return `abspath(normpath(path))`. -/
def validatepath (p : PyStr) : Except FsError PyStr :=
  if p.contains '\x00' then .error (.invalidCharsInPath p)
  else
    match normpath p with
    | none => .error (.illegalBackReference p)
    | some n => .ok (abspath n)

/-- PACHFS constructor scoped-root computation:
`self._prefix = relpath(normpath(dir_path)).rstrip("/")`. -/
def mkPrefix (dir_path : PyStr) : Option PyStr :=
  (normpath dir_path).map fun n => rstripSet ['/'] (relpath n)

/-- PACHFS._path_to_key: `relpath(normpath(path))`, joined under the scoped
root, `lstrip("/")`, with `/` replaced by the delimiter.  The `IllegalBackReference`
raised by `normpath` propagates as an error. -/
def _path_to_key (prefixStr delim : PyStr) (path : PyStr) : Except FsError PyStr :=
  match normpath path with
  | none => .error (.illegalBackReference path)
  | some n => .ok (pyReplace (lstripSet ['/'] (prefixStr ++ '/' :: relpath n)) ['/'] delim)

/-- PACHFS._path_to_dir_key: as `_path_to_key` but `forcedir` is applied
before the `lstrip`, so the key is trailing-delimiter-terminated. -/
def _path_to_dir_key (prefixStr delim : PyStr) (path : PyStr) : Except FsError PyStr :=
  match normpath path with
  | none => .error (.illegalBackReference path)
  | some n => .ok (pyReplace (lstripSet ['/'] (forcedir (prefixStr ++ '/' :: relpath n))) ['/'] delim)

/-- PACHFS._key_to_path: `key.replace(delimiter, "/")`. -/
def _key_to_path (delim : PyStr) (key : PyStr) : PyStr := pyReplace key delim ['/']

/-- The pacherrors translator (the `except` clauses of the context manager):
an `RpcError` whose error code is `NoSuchBucket` becomes the generic
`ResourceError`; otherwise HTTP status 404 becomes `ResourceNotFound`,
403 becomes `PermissionDenied`, and anything else `OperationFailed`;
every non-Rpc exception becomes `RemoteConnectionError`. -/
def pacherrors (path : PyStr) (e : BackendExc) : FsError :=
  match e with
  | .rpc r =>
    if r.errorCode = some (pstr "NoSuchBucket") then .resourceError path
    else if r.httpStatus = 404 then .resourceNotFound path
    else if r.httpStatus = 403 then .permissionDenied path
    else .operationFailed path
  | .generic _ => .remoteConnectionError path

/-- One entry returned by the backend `list_file` call, with the fields the
source reads: `file.path`, `fileType` (2 = directory), `sizeBytes`,
`committed`, plus the `Key` item that `isempty` subscripts (the key field
of the spec's `listEntries` contract). -/
structure PfsFileInfo where
  path : PyStr
  fileType : Nat
  sizeBytes : Nat
  committed : Nat
  Key : PyStr
  deriving DecidableEq, Repr

/-- The backend client, as a record of response functions keyed by the
`:{...}` target of the pfs URI each call is built from.  Commits are
modelled by the surrounding open/finish events in the call trace. -/
structure Backend where
  listFile : PyStr → Except BackendExc (List PfsFileInfo)
  getFile : PyStr → Except BackendExc (List (List Nat))
  putFile : PyStr → List Nat → Except BackendExc Unit
  deleteFile : PyStr → Except BackendExc Unit

/-- One backend interaction, recorded in program order. -/
inductive Call where
  | listFile (target : PyStr)
  | getFile (target : PyStr)
  | openCommit
  | putFile (key : PyStr) (data : List Nat)
  | deleteFile (key : PyStr)
  | finishCommit
  deriving DecidableEq, Repr

/-- The immutable per-filesystem configuration the modelled operations read:
the scoped root prefix and the delimiter. -/
structure Config where
  prefixStr : PyStr
  delim : PyStr
  deriving DecidableEq, Repr

/-- PACHFS._get_object: probe the bare key (the argument stripped of
trailing delimiter characters); only if that probe raises `ResourceNotFound`
retry once with the directory-form key (trailing delimiter appended); any
other failure, and any failure of the retry, propagates. -/
def _get_object (cfg : Config) (b : Backend) (path key : PyStr) :
    Except FsError (List PfsFileInfo) × List Call :=
  let k := rstripSet cfg.delim key
  match b.listFile k with
  | .ok obj => (.ok obj, [.listFile k])
  | .error e =>
    match pacherrors path e with
    | .resourceNotFound _ =>
      match b.listFile (k ++ cfg.delim) with
      | .ok obj => (.ok obj, [.listFile k, .listFile (k ++ cfg.delim)])
      | .error e2 => (.error (pacherrors path e2), [.listFile k, .listFile (k ++ cfg.delim)])
    | otherErr => (.error otherErr, [.listFile k])

/-- The resource type recorded in an `Info`: `ResourceType.directory` or
`ResourceType.file` from the fs enums. -/
inductive PyResourceType where
  | directory
  | file
  deriving DecidableEq, Repr

/-- The `Info` dictionary the operations build: basic name / is_dir plus
the details the source fills in. -/
structure Info where
  name : PyStr
  isDir : Bool
  rtype : PyResourceType
  modified : Option Nat
  size : Nat
  deriving DecidableEq, Repr

/-- PACHFS._info_from_object: a file entry is a directory when its
`fileType` equals 2; the name is the basename of its path. -/
def _info_from_object (o : PfsFileInfo) : Info :=
  let is_dir := o.fileType = 2
  { name := basename o.path, isDir := is_dir,
    rtype := if is_dir then .directory else .file,
    modified := some o.committed, size := o.sizeBytes }

/-- PACHFS.getinfo.  For a non-root parent the source first lists the path
itself inside `pacherrors` and raises `ResourceNotFound` on an empty result;
that raise happens inside the `pacherrors` context, whose generic
`except Exception` clause re-raises it as `RemoteConnectionError`, which is
what the model records.  The root path returns an explicit directory `Info`
without touching the backend.  Otherwise `_get_object` is consulted and the
first entry decides: an exact path match is a file entry, anything else an
implicit directory named by the key.  An empty `_get_object` result makes
the Python function fall off the end and return `None`. -/
def getinfo (cfg : Config) (b : Backend) (path : PyStr) :
    Except FsError (Option Info) × List Call :=
  match validatepath path with
  | .error e => (.error e, [])
  | .ok vpath =>
    match _path_to_key cfg.prefixStr cfg.delim vpath with
    | .error e => (.error e, [])
    | .ok key =>
      let parentStep : Except FsError Unit × List Call :=
        if dirname vpath = ['/'] then (.ok (), [])
        else
          match b.listFile vpath with
          | .error e => (.error (pacherrors path e), [.listFile vpath])
          | .ok objs =>
            if objs.length = 0 then (.error (.remoteConnectionError path), [.listFile vpath])
            else (.ok (), [.listFile vpath])
      match parentStep with
      | (.error e, tr) => (.error e, tr)
      | (.ok _, tr0) =>
        if vpath = ['/'] then
          (.ok (some { name := ['/'], isDir := true, rtype := .directory,
                        modified := none, size := 0 }), tr0)
        else
          match _get_object cfg b vpath key with
          | (.error e, tr) => (.error e, tr0 ++ tr)
          | (.ok objs, tr) =>
            match objs with
            | [] => (.ok none, tr0 ++ tr)
            | f :: _ =>
              if f.path = vpath then (.ok (some (_info_from_object f)), tr0 ++ tr)
              else (.ok (some { name := key, isDir := true, rtype := .directory,
                                 modified := none, size := 0 }), tr0 ++ tr)

/-- PACHFS._getinfo: info without the parent-directory step.  The root is an
explicit directory with empty name; otherwise `_get_object` is consulted
(with the unvalidated `path` argument, as in the source), an empty result
raises `ResourceNotFound`, and the first entry decides file versus implicit
directory by comparison with the original `path` argument. -/
def _getinfo (cfg : Config) (b : Backend) (path : PyStr) :
    Except FsError Info × List Call :=
  match validatepath path with
  | .error e => (.error e, [])
  | .ok vpath =>
    match _path_to_key cfg.prefixStr cfg.delim vpath with
    | .error e => (.error e, [])
    | .ok key =>
      if vpath = ['/'] then
        (.ok { name := [], isDir := true, rtype := .directory, modified := none, size := 0 }, [])
      else
        match _get_object cfg b path key with
        | (.error e, tr) => (.error e, tr)
        | (.ok [], tr) => (.error (.resourceNotFound path), tr)
        | (.ok (f :: _), tr) =>
          if f.path = path then (.ok (_info_from_object f), tr)
          else (.ok { name := key, isDir := true, rtype := .directory,
                       modified := none, size := 0 }, tr)

/-- fs.base.FS.isdir, the implementation `makedir` calls: `getinfo(path).is_dir`,
with `ResourceNotFound` absorbed into `false`.  A `None` info (possible, since
`getinfo` can fall off the end) would raise `AttributeError` in Python. -/
def isdir (cfg : Config) (b : Backend) (path : PyStr) : Except FsError Bool × List Call :=
  match getinfo cfg b path with
  | (.error (.resourceNotFound _), tr) => (.ok false, tr)
  | (.error e, tr) => (.error e, tr)
  | (.ok none, tr) => (.error .attributeErrorNone, tr)
  | (.ok (some i), tr) => (.ok i.isDir, tr)

/-- PACHFS.makedir: require the parent to resolve as a directory
(`ResourceNotFound` otherwise), require `_getinfo` to raise
`ResourceNotFound` (`DirectoryExists` if it returns), then inside one commit
put a zero-length sentinel at `<dir-key>/.empty` (the directory key already
carries its trailing delimiter, so the stored key contains a doubled
separator, exactly as the source writes it). -/
def makedir (cfg : Config) (b : Backend) (path : PyStr) : Except FsError Unit × List Call :=
  match validatepath path with
  | .error e => (.error e, [])
  | .ok vpath =>
    match _path_to_dir_key cfg.prefixStr cfg.delim vpath with
    | .error e => (.error e, [])
    | .ok dkey =>
      match isdir cfg b (dirname vpath) with
      | (.error e, tr) => (.error e, tr)
      | (.ok false, tr) => (.error (.resourceNotFound path), tr)
      | (.ok true, tr1) =>
        match _getinfo cfg b path with
        | (.error (.resourceNotFound _), tr2) =>
          let keypath := dkey ++ pstr "/.empty"
          match b.putFile keypath [] with
          | .ok _ => (.ok (), tr1 ++ tr2 ++ [.openCommit, .putFile keypath [], .finishCommit])
          | .error e =>
            (.error (pacherrors path e),
              tr1 ++ tr2 ++ [.openCommit, .putFile keypath [], .finishCommit])
        | (.error e, tr2) => (.error e, tr1 ++ tr2)
        | (.ok _, tr2) => (.error (.directoryExists path), tr1 ++ tr2)

/-- PACHFS.exists: the root exists unconditionally and without any backend
call; other paths probe `_get_object` on the directory-form key, absorbing
`ResourceNotFound` into `false`. -/
def existsFS (cfg : Config) (b : Backend) (path : PyStr) : Except FsError Bool × List Call :=
  match validatepath path with
  | .error e => (.error e, [])
  | .ok vpath =>
    if vpath = ['/'] then (.ok true, [])
    else
      match _path_to_dir_key cfg.prefixStr cfg.delim vpath with
      | .error e => (.error e, [])
      | .ok dkey =>
        match _get_object cfg b path dkey with
        | (.error (.resourceNotFound _), tr) => (.ok false, tr)
        | (.error e, tr) => (.error e, tr)
        | (.ok _, tr) => (.ok true, tr)

/-- PACHFS.isempty: list the directory-form key (without `pacherrors`, so a
backend failure escapes untranslated) and report empty exactly when every
entry's `Key` equals the directory key or the literal string `.empty`. -/
def isempty (cfg : Config) (b : Backend) (path : PyStr) : Except FsError Bool × List Call :=
  match validatepath path with
  | .error e => (.error e, [])
  | .ok vpath =>
    match _path_to_dir_key cfg.prefixStr cfg.delim vpath with
    | .error e => (.error e, [])
    | .ok dkey =>
      match b.listFile dkey with
      | .error e => (.error (.rawBackend e), [.listFile dkey])
      | .ok objs =>
        (.ok (objs.all fun o => o.Key == dkey || o.Key == pstr ".empty"), [.listFile dkey])

/-- PACHFS.removedir: `RemoveRootError` on the root before anything else;
then `getinfo` (whose failures propagate), `DirectoryExpected` on a
non-directory, `DirectoryNotEmpty` when `isempty` is false; on an empty
directory the source simply returns without staging any delete. -/
def removedir (cfg : Config) (b : Backend) (path : PyStr) : Except FsError Unit × List Call :=
  match validatepath path with
  | .error e => (.error e, [])
  | .ok vpath =>
    if vpath = ['/'] then (.error .removeRootError, [])
    else
      match getinfo cfg b vpath with
      | (.error e, tr) => (.error e, tr)
      | (.ok none, tr) => (.error .attributeErrorNone, tr)
      | (.ok (some i), tr1) =>
        if i.isDir then
          match isempty cfg b path with
          | (.error e, tr2) => (.error e, tr1 ++ tr2)
          | (.ok false, tr2) => (.error (.directoryNotEmpty path), tr1 ++ tr2)
          | (.ok true, tr2) => (.ok (), tr1 ++ tr2)
        else (.error (.directoryExpected path), tr1)

/-- PACHFS.remove: no existence or type probe at all; open a commit and
issue the delete directly.  The backend call is not wrapped in
`pacherrors`, so a backend failure escapes untranslated. -/
def remove (cfg : Config) (b : Backend) (path : PyStr) : Except FsError Unit × List Call :=
  match validatepath path with
  | .error e => (.error e, [])
  | .ok vpath =>
    match _path_to_key cfg.prefixStr cfg.delim vpath with
    | .error e => (.error e, [])
    | .ok key =>
      match b.deleteFile key with
      | .ok _ => (.ok (), [.openCommit, .deleteFile key, .finishCommit])
      | .error e => (.error (.rawBackend e), [.openCommit, .deleteFile key, .finishCommit])

/-- The `contents` argument of `writebytes`: Python values are either a
bytes object or something of another type. -/
inductive PyBytesArg where
  | bytes (data : List Nat)
  | notBytes
  deriving DecidableEq, Repr

/-- PACHFS.writebytes: the `isinstance(contents, bytes)` guard runs before
path validation, key derivation and any backend interaction; then the bytes
are put under the resolved key inside one commit, with `pacherrors`
translation. -/
def writebytes (cfg : Config) (b : Backend) (path : PyStr) (contents : PyBytesArg) :
    Except FsError Unit × List Call :=
  match contents with
  | .notBytes => (.error (.typeError (pstr "contents must be bytes")), [])
  | .bytes data =>
    match validatepath path with
    | .error e => (.error e, [])
    | .ok vpath =>
      match _path_to_key cfg.prefixStr cfg.delim vpath with
      | .error e => (.error e, [])
      | .ok key =>
        match b.putFile key data with
        | .ok _ => (.ok (), [.openCommit, .putFile key data, .finishCommit])
        | .error e => (.error (pacherrors path e), [.openCommit, .putFile key data, .finishCommit])

/-- The mode flags of an open file handle (`fs.mode.Mode`), as the close
handlers consume them. -/
structure Mode where
  reading : Bool
  writing : Bool
  create : Bool
  exclusive : Bool
  deriving DecidableEq, Repr

/-- The local temporary buffer backing a `PachFile`: its bytes, the current
seek position, and whether the underlying temporary file has been closed. -/
structure PachBuffer where
  data : List Nat
  pos : Nat
  closed : Bool
  deriving DecidableEq, Repr

/-- `put_file_from_file` inside a fresh commit, wrapped in `pacherrors`:
streams the buffer from its current position to the backend under `key`. -/
def putFromBuffer (b : Backend) (path key : PyStr) (buf : PachBuffer) :
    Except FsError Unit × List Call :=
  let content := buf.data.drop buf.pos
  match b.putFile key content with
  | .ok _ => (.ok (), [.openCommit, .putFile key content, .finishCommit])
  | .error e => (.error (pacherrors path e), [.openCommit, .putFile key content, .finishCommit])

/-- openbin.on_close_create: `try:` seek the buffer to 0 and stream it to
the backend under the resolved key inside a fresh commit; `finally:` close
the local buffer, so the close happens whether or not the flush failed, and
a flush failure propagates after the cleanup. -/
def on_close_create (b : Backend) (path key : PyStr) (buf : PachBuffer) :
    Except FsError Unit × PachBuffer × List Call :=
  let buf1 : PachBuffer := { buf with pos := 0 }
  let (res, calls) := putFromBuffer b path key buf1
  (res, { buf1 with closed := true }, calls)

/-- openbin.on_close (the non-create handler): same as `on_close_create`
but the flush only happens when the mode has write intent; the local buffer
is closed in the `finally:` block in every case. -/
def on_close (b : Backend) (path key : PyStr) (mode : Mode) (buf : PachBuffer) :
    Except FsError Unit × PachBuffer × List Call :=
  if mode.writing then
    let buf1 : PachBuffer := { buf with pos := 0 }
    let (res, calls) := putFromBuffer b path key buf1
    (res, { buf1 with closed := true }, calls)
  else (.ok (), { buf with closed := true }, [])

/-- A not-found backend failure: an RpcError with HTTP status 404 and no
special error code. -/
def rpc404 : BackendExc := .rpc { errorCode := none, httpStatus := 404 }

/-- Configuration with the default scoped root `/` (empty prefix) and the
default delimiter `/`. -/
def cfgRoot : Config := { prefixStr := [], delim := ['/'] }

/-- The sentinel object of directory `/a`, as a `list_file` entry: a file
(fileType 1) whose key is `a/.empty`. -/
def sentinelInfo : PfsFileInfo :=
  { path := pstr "/a/.empty", fileType := 1, sizeBytes := 0, committed := 5,
    Key := pstr "a/.empty" }

/-- A backend holding exactly one directory `/a` whose only child is its
`.empty` sentinel; every other key is absent (404). -/
def backendSentinelOnly : Backend :=
  { listFile := fun k =>
      if k = pstr "a" then .ok [sentinelInfo]
      else if k = pstr "a/" then .ok [sentinelInfo]
      else .error rpc404
    getFile := fun _ => .error rpc404
    putFile := fun _ _ => .ok ()
    deleteFile := fun _ => .ok () }

/-- A backend holding no objects at all: every list or get reports 404,
puts and deletes succeed. -/
def backendEmptyRepo : Backend :=
  { listFile := fun _ => .error rpc404
    getFile := fun _ => .error rpc404
    putFile := fun _ _ => .ok ()
    deleteFile := fun _ => .ok () }

/-- A backend whose mutating calls raise a non-Rpc exception. -/
def backendPutDeleteFail : Backend :=
  { listFile := fun _ => .error rpc404
    getFile := fun _ => .error rpc404
    putFile := fun _ _ => .error (.generic (pstr "boom"))
    deleteFile := fun _ => .error (.generic (pstr "boom")) }

/-- Modelled from the spec claim C4 (refinement comparison only): whether an
error is one of the four kinds the claim says every backend failure becomes
(`ResourceNotFound`, `PermissionDenied`, `OperationFailed`,
`RemoteConnectionError`). -/
def claimedUniformKind : FsError → Bool
  | .resourceNotFound _ => true
  | .permissionDenied _ => true
  | .operationFailed _ => true
  | .remoteConnectionError _ => true
  | _ => false

/-- A path segment as produced by `normpath`: nonempty, not a dot segment,
and free of the separator. -/
def plainSeg (s : PyStr) : Prop :=
  s ≠ [] ∧ s ≠ ['.'] ∧ s ≠ ['.', '.'] ∧ '/' ∉ s

/-- C7: removeDirectory applied to the root path `/` always fails with
`RemoveRootError`, for every configuration and every backend, and its call
trace is empty, so the check happens before any backend call. -/
theorem removedir_root_always_fails (cfg : Config) (b : Backend) :
    removedir cfg b (pstr "/") = (.error .removeRootError, []) := rfl

/-- C8: the root path always resolves to an explicit directory entry:
`getinfo "/"` returns directory info with an empty call trace (no backend
consultation) and `exists "/"` returns true unconditionally, for every
configuration and backend. -/
theorem root_resolves_explicit_directory (cfg : Config) (b : Backend) :
    getinfo cfg b (pstr "/") =
      (.ok (some { name := ['/'], isDir := true, rtype := .directory,
                    modified := none, size := 0 }), []) ∧
    existsFS cfg b (pstr "/") = (.ok true, []) := ⟨rfl, rfl⟩

/-- C9: writeAllBytes with a non-bytes `contents` raises `TypeError` with an
empty call trace, for every configuration, backend and path (even an invalid
one), so the check precedes path validation, key derivation and any backend
interaction, and the remote state is unchanged. -/
theorem writebytes_rejects_non_bytes (cfg : Config) (b : Backend) (path : PyStr) :
    writebytes cfg b path .notBytes =
      (.error (.typeError (pstr "contents must be bytes")), []) := rfl

/-- C6: divergence witness.  The directory `/a` holds only its `.empty`
sentinel (key `a/.empty`), which the claim counts as empty; yet `isempty`
compares each entry key with the literal `.empty`, reports the directory
non-empty, and `removedir` fails with `DirectoryNotEmpty`. -/
theorem removedir_sentinel_only_divergence :
    backendSentinelOnly.listFile (pstr "a/") = .ok [sentinelInfo] ∧
    sentinelInfo.Key = pstr "a/.empty" ∧
    isempty cfgRoot backendSentinelOnly (pstr "/a") = (.ok false, [.listFile (pstr "a/")]) ∧
    removedir cfgRoot backendSentinelOnly (pstr "/a") =
      (.error (.directoryNotEmpty (pstr "/a")),
        [.listFile (pstr "a"), .listFile (pstr "a/")]) := by
  refine ⟨rfl, rfl, rfl, rfl⟩

/-- C1: closing a handle with write intent seeks the buffer to offset 0,
streams the entire buffer content under the resolved key inside one freshly
opened commit, and closes the local buffer unconditionally; when the flush
fails, the buffer is still closed and the translated flush error is
returned.  Both close handlers (`on_close_create` for create modes and
`on_close` for writable non-create modes) are covered. -/
theorem close_flushes_and_releases (b : Backend) (path key : PyStr) (mode : Mode)
    (buf : PachBuffer) (hw : mode.writing = true) :
    (on_close_create b path key buf).2.1.closed = true ∧
    (on_close b path key mode buf).2.1.closed = true ∧
    (on_close_create b path key buf).2.1.pos = 0 ∧
    (on_close b path key mode buf).2.1.pos = 0 ∧
    (on_close_create b path key buf).2.2 = [.openCommit, .putFile key buf.data, .finishCommit] ∧
    (on_close b path key mode buf).2.2 = [.openCommit, .putFile key buf.data, .finishCommit] ∧
    (b.putFile key buf.data = .ok () →
      (on_close_create b path key buf).1 = .ok () ∧
      (on_close b path key mode buf).1 = .ok ()) ∧
    (∀ e, b.putFile key buf.data = .error e →
      (on_close_create b path key buf).1 = .error (pacherrors path e) ∧
      (on_close b path key mode buf).1 = .error (pacherrors path e)) := by
  unfold on_close_create on_close putFromBuffer
  rw [hw]
  simp only [if_true, List.drop_zero]
  cases h : b.putFile key buf.data with
  | ok u => cases u; simp [h]
  | error e => simp [h]

/-- C1 witness: a concrete writable handle at key `f` with three buffered
bytes, closed against the empty-repo backend. -/
theorem close_flushes_and_releases_witness :
    (on_close_create backendEmptyRepo (pstr "/f") (pstr "f")
        { data := [1, 2, 3], pos := 3, closed := false }).2.1.closed = true :=
  (close_flushes_and_releases backendEmptyRepo (pstr "/f") (pstr "f")
    { reading := false, writing := true, create := true, exclusive := false }
    { data := [1, 2, 3], pos := 3, closed := false } rfl).1

/-- C10: removeFile stages the backend delete directly, with no existence or
file-type probe: for every path (absent or a directory alike) the call trace
is exactly open-commit, delete, finish-commit, and the result is never
`ResourceNotFound` or `FileExpected` — a backend failure escapes as the raw
backend error. -/
theorem remove_no_existence_check (cfg : Config) (b : Backend) (path vpath key : PyStr)
    (hv : validatepath path = .ok vpath)
    (hk : _path_to_key cfg.prefixStr cfg.delim vpath = .ok key) :
    (remove cfg b path).2 = [.openCommit, .deleteFile key, .finishCommit] ∧
    (b.deleteFile key = .ok () → (remove cfg b path).1 = .ok ()) ∧
    (∀ e, b.deleteFile key = .error e → (remove cfg b path).1 = .error (.rawBackend e)) ∧
    (∀ q, (remove cfg b path).1 ≠ .error (.resourceNotFound q)) ∧
    (∀ q, (remove cfg b path).1 ≠ .error (.fileExpected q)) := by
  simp only [remove, hv, hk]
  cases h : b.deleteFile key with
  | ok u => cases u; simp [h]
  | error e => simp [h]

/-- C10 witness: removing the absent path `/absent` (the backend holds only
`/a`) issues the delete directly and succeeds. -/
theorem remove_no_existence_check_witness :
    (remove cfgRoot backendSentinelOnly (pstr "/absent")).1 = .ok () :=
  (remove_no_existence_check cfgRoot backendSentinelOnly (pstr "/absent")
    (pstr "/absent") (pstr "absent") rfl rfl).2.1 rfl

/-- C5: makeDirectory fails with `ResourceNotFound` when the parent does not
resolve as a directory, fails with `DirectoryExists` when the path already
resolves to an existing entry, and otherwise stages a put of the zero-length
sentinel at `<dir-key>/.empty` inside a single freshly opened commit. -/
theorem makedir_spec (cfg : Config) (b : Backend) (path vpath dkey : PyStr)
    (hv : validatepath path = .ok vpath)
    (hk : _path_to_dir_key cfg.prefixStr cfg.delim vpath = .ok dkey) :
    (∀ tr, isdir cfg b (dirname vpath) = (.ok false, tr) →
      makedir cfg b path = (.error (.resourceNotFound path), tr)) ∧
    (∀ tr1 tr2 i, isdir cfg b (dirname vpath) = (.ok true, tr1) →
      _getinfo cfg b path = (.ok i, tr2) →
      makedir cfg b path = (.error (.directoryExists path), tr1 ++ tr2)) ∧
    (∀ tr1 tr2 q, isdir cfg b (dirname vpath) = (.ok true, tr1) →
      _getinfo cfg b path = (.error (.resourceNotFound q), tr2) →
      b.putFile (dkey ++ pstr "/.empty") [] = .ok () →
      makedir cfg b path = (.ok (),
        tr1 ++ tr2 ++ [.openCommit, .putFile (dkey ++ pstr "/.empty") [], .finishCommit])) := by
  refine ⟨?_, ?_, ?_⟩
  · intro tr h
    simp only [makedir, hv, hk, h]
  · intro tr1 tr2 i h1 h2
    simp only [makedir, hv, hk, h1, h2]
  · intro tr1 tr2 q h1 h2 h3
    simp only [makedir, hv, hk, h1, h2, h3]

/-- C5 witness: creating `/a` in an empty repo checks the root parent,
probes both key forms, and stages the sentinel put inside one commit. -/
theorem makedir_spec_witness :
    makedir cfgRoot backendEmptyRepo (pstr "/a") = (.ok (),
      [] ++ [.listFile (pstr "a"), .listFile (pstr "a/")] ++
        [.openCommit, .putFile (pstr "a/" ++ pstr "/.empty") [], .finishCommit]) :=
  (makedir_spec cfgRoot backendEmptyRepo (pstr "/a") (pstr "/a") (pstr "a/") rfl rfl).2.2
    [] [.listFile (pstr "a"), .listFile (pstr "a/")] (pstr "/a") rfl rfl rfl

/-- Shared helper: when `pacherrors` yields `ResourceNotFound`, its payload
is the path the translator was given. -/
theorem pacherrors_notFound_path (path : PyStr) (e : BackendExc) (q : PyStr)
    (h : pacherrors path e = .resourceNotFound q) : q = path := by
  cases e with
  | rpc r =>
    simp only [pacherrors] at h
    split_ifs at h
    all_goals simp_all
  | generic m => simp [pacherrors] at h

/-- C4 (amended): every failure passing through the `pacherrors` translator
is mapped to exactly one of `ResourceError` (error code `NoSuchBucket`,
regardless of status), `ResourceNotFound` (other Rpc failures with status
404), `PermissionDenied` (status 403), `OperationFailed` (other Rpc
failures) or `RemoteConnectionError` (non-Rpc failures); `remove` and
`isempty`, however, invoke the backend without the translator and let the
backend failure escape untranslated. -/
theorem pacherrors_translation_total (path : PyStr) (e : BackendExc) :
    (∀ r, e = .rpc r → r.errorCode = some (pstr "NoSuchBucket") →
      pacherrors path e = .resourceError path) ∧
    (∀ r, e = .rpc r → r.errorCode ≠ some (pstr "NoSuchBucket") → r.httpStatus = 404 →
      pacherrors path e = .resourceNotFound path) ∧
    (∀ r, e = .rpc r → r.errorCode ≠ some (pstr "NoSuchBucket") → r.httpStatus ≠ 404 →
      r.httpStatus = 403 → pacherrors path e = .permissionDenied path) ∧
    (∀ r, e = .rpc r → r.errorCode ≠ some (pstr "NoSuchBucket") → r.httpStatus ≠ 404 →
      r.httpStatus ≠ 403 → pacherrors path e = .operationFailed path) ∧
    (∀ m, e = .generic m → pacherrors path e = .remoteConnectionError path) ∧
    (pacherrors path e = .resourceError path ∨
      claimedUniformKind (pacherrors path e) = true) ∧
    (∀ cfg b p vp key, validatepath p = .ok vp →
      _path_to_key cfg.prefixStr cfg.delim vp = .ok key →
      b.deleteFile key = .error e → (remove cfg b p).1 = .error (.rawBackend e)) ∧
    (∀ cfg b p vp dkey, validatepath p = .ok vp →
      _path_to_dir_key cfg.prefixStr cfg.delim vp = .ok dkey →
      b.listFile dkey = .error e → (isempty cfg b p).1 = .error (.rawBackend e)) := by
  refine ⟨?_, ?_, ?_, ?_, ?_, ?_, ?_, ?_⟩
  · intro r he hc; subst he; simp [pacherrors, hc]
  · intro r he hc hs; subst he; simp [pacherrors, hc, hs]
  · intro r he hc hs hs2; subst he; simp [pacherrors, hc, hs, hs2]
  · intro r he hc hs hs2; subst he; simp [pacherrors, hc, hs, hs2]
  · intro m he; subst he; simp [pacherrors]
  · cases e with
    | rpc r =>
      simp only [pacherrors]
      split_ifs <;> simp [claimedUniformKind]
    | generic m => simp [pacherrors, claimedUniformKind]
  · intro cfg b p vp key hv hk hd
    simp only [remove, hv, hk, hd]
  · intro cfg b p vp dkey hv hk hd
    simp only [isempty, hv, hk, hd]

/-- C4 witness: a plain 404 Rpc failure translates to `ResourceNotFound`. -/
theorem pacherrors_translation_total_witness :
    pacherrors (pstr "/p") rpc404 = .resourceNotFound (pstr "/p") :=
  (pacherrors_translation_total (pstr "/p") rpc404).2.1
    { errorCode := none, httpStatus := 404 } rfl (by decide) rfl

/-- C4 counterexample: an Rpc failure with error code `NoSuchBucket` and
HTTP status 404 (a not-found status) is translated to the generic
`ResourceError`, which is none of the four kinds the claim allows; and a
backend failure during `remove` crosses the core boundary untranslated. -/
theorem pacherrors_uniformity_counterexample :
    pacherrors (pstr "/a")
        (.rpc { errorCode := some (pstr "NoSuchBucket"), httpStatus := 404 }) =
      .resourceError (pstr "/a") ∧
    claimedUniformKind (.resourceError (pstr "/a")) = false ∧
    (remove cfgRoot backendPutDeleteFail (pstr "/x")).1 =
      .error (.rawBackend (.generic (pstr "boom"))) ∧
    claimedUniformKind (.rawBackend (.generic (pstr "boom"))) = false := by decide

/-- C2: the two-phase probe of entry resolution.  `_get_object` always
queries the bare (trailing-delimiter-stripped) key first; exactly when that
probe translates to a not-found condition it retries once with the
directory-form key; any other first-probe failure propagates without a
retry; a first-probe not-found is absorbed when the retry succeeds; and a
`ResourceNotFound` reaches the caller only when both probes report
not-found. -/
theorem get_object_two_phase (cfg : Config) (b : Backend) (path key : PyStr) :
    (∀ obj, b.listFile (rstripSet cfg.delim key) = .ok obj →
      _get_object cfg b path key = (.ok obj, [.listFile (rstripSet cfg.delim key)])) ∧
    (∀ e, b.listFile (rstripSet cfg.delim key) = .error e →
      (∀ q, pacherrors path e ≠ .resourceNotFound q) →
      _get_object cfg b path key =
        (.error (pacherrors path e), [.listFile (rstripSet cfg.delim key)])) ∧
    (∀ e obj, b.listFile (rstripSet cfg.delim key) = .error e →
      pacherrors path e = .resourceNotFound path →
      b.listFile (rstripSet cfg.delim key ++ cfg.delim) = .ok obj →
      _get_object cfg b path key = (.ok obj,
        [.listFile (rstripSet cfg.delim key),
          .listFile (rstripSet cfg.delim key ++ cfg.delim)])) ∧
    (∀ e e2, b.listFile (rstripSet cfg.delim key) = .error e →
      pacherrors path e = .resourceNotFound path →
      b.listFile (rstripSet cfg.delim key ++ cfg.delim) = .error e2 →
      _get_object cfg b path key = (.error (pacherrors path e2),
        [.listFile (rstripSet cfg.delim key),
          .listFile (rstripSet cfg.delim key ++ cfg.delim)])) ∧
    (∀ q, (_get_object cfg b path key).1 = .error (.resourceNotFound q) →
      (∃ e, b.listFile (rstripSet cfg.delim key) = .error e ∧
        pacherrors path e = .resourceNotFound path) ∧
      (∃ e2, b.listFile (rstripSet cfg.delim key ++ cfg.delim) = .error e2 ∧
        pacherrors path e2 = .resourceNotFound q)) := by
  have p1 : ∀ obj, b.listFile (rstripSet cfg.delim key) = .ok obj →
      _get_object cfg b path key = (.ok obj, [.listFile (rstripSet cfg.delim key)]) := by
    intro obj h
    simp only [_get_object, h]
  have p2 : ∀ e, b.listFile (rstripSet cfg.delim key) = .error e →
      (∀ q, pacherrors path e ≠ .resourceNotFound q) →
      _get_object cfg b path key =
        (.error (pacherrors path e), [.listFile (rstripSet cfg.delim key)]) := by
    intro e h hnot
    cases hpe : pacherrors path e <;>
      first
        | exact absurd hpe (hnot _)
        | simp only [_get_object, h, hpe]
  have p3 : ∀ e obj, b.listFile (rstripSet cfg.delim key) = .error e →
      pacherrors path e = .resourceNotFound path →
      b.listFile (rstripSet cfg.delim key ++ cfg.delim) = .ok obj →
      _get_object cfg b path key = (.ok obj,
        [.listFile (rstripSet cfg.delim key),
          .listFile (rstripSet cfg.delim key ++ cfg.delim)]) := by
    intro e obj h hnf h2
    simp only [_get_object, h, hnf, h2]
  have p4 : ∀ e e2, b.listFile (rstripSet cfg.delim key) = .error e →
      pacherrors path e = .resourceNotFound path →
      b.listFile (rstripSet cfg.delim key ++ cfg.delim) = .error e2 →
      _get_object cfg b path key = (.error (pacherrors path e2),
        [.listFile (rstripSet cfg.delim key),
          .listFile (rstripSet cfg.delim key ++ cfg.delim)]) := by
    intro e e2 h hnf h2
    simp only [_get_object, h, hnf, h2]
  refine ⟨p1, p2, p3, p4, ?_⟩
  intro q hres
  cases h1 : b.listFile (rstripSet cfg.delim key) with
  | ok obj =>
    rw [p1 obj h1] at hres
    simp at hres
  | error e =>
    by_cases hex : ∃ q1, pacherrors path e = .resourceNotFound q1
    · obtain ⟨q1, hq1⟩ := hex
      have hq1p : q1 = path := pacherrors_notFound_path path e q1 hq1
      subst hq1p
      cases h2 : b.listFile (rstripSet cfg.delim key ++ cfg.delim) with
      | ok obj =>
        rw [p3 e obj h1 hq1 h2] at hres
        simp at hres
      | error e2 =>
        rw [p4 e e2 h1 hq1 h2] at hres
        simp only [Except.error.injEq] at hres
        exact ⟨⟨e, rfl, hq1⟩, ⟨e2, rfl, hres⟩⟩
    · push_neg at hex
      rw [p2 e h1 hex] at hres
      simp only [Except.error.injEq] at hres
      exact absurd hres (hex q)

/-- C2 witness: probing the absent path `/a` against the empty repo makes
exactly the bare-key probe and the directory-form retry, and reports the
translated not-found of the second probe. -/
theorem get_object_two_phase_witness :
    _get_object cfgRoot backendEmptyRepo (pstr "/a") (pstr "a") =
      (.error (pacherrors (pstr "/a") rpc404),
        [.listFile (rstripSet cfgRoot.delim (pstr "a")),
          .listFile (rstripSet cfgRoot.delim (pstr "a") ++ cfgRoot.delim)]) :=
  (get_object_two_phase cfgRoot backendEmptyRepo (pstr "/a") (pstr "a")).2.2.2.1
    rpc404 rpc404 rfl rfl rfl

/-- Replacing `/` by `/` with bounded fuel is the identity. -/
theorem replFuel_slash_self : ∀ (fuel : Nat) (s : PyStr), s.length ≤ fuel →
    replFuel fuel s ['/'] ['/'] = s := by
  intro fuel
  induction fuel with
  | zero =>
    intro s hs
    cases s with
    | nil => rfl
    | cons c t => simp at hs
  | succ m ih =>
    intro s hs
    cases s with
    | nil => rfl
    | cons c t =>
      simp only [replFuel]
      by_cases hc : c = '/'
      · subst hc
        rw [if_pos (by simp [List.isPrefixOf])]
        simp only [List.length_singleton, List.drop_succ_cons, List.drop_zero]
        rw [ih t (by simpa using Nat.le_of_succ_le_succ (by simpa using hs))]
        rfl
      · rw [if_neg (by simp only [List.isPrefixOf, Bool.and_eq_true, beq_iff_eq,
            List.isPrefixOf_nil_left, and_true]; exact fun h => hc h.symm)]
        rw [ih t (by simpa using Nat.le_of_succ_le_succ (by simpa using hs))]

/-- Python `s.replace("/", "/")` is the identity. -/
theorem pyReplace_slash_self (s : PyStr) : pyReplace s ['/'] ['/'] = s := by
  unfold pyReplace
  rw [if_neg (by simp)]
  exact replFuel_slash_self s.length s le_rfl

/-- `relpath` leaves a string that does not start with `/` unchanged. -/
theorem relpath_eq_self (s : PyStr) (h : s.head? ≠ some '/') : relpath s = s := by
  cases s with
  | nil => rfl
  | cons c t =>
    have : c ≠ '/' := by
      intro hc
      exact h (by rw [hc]; rfl)
    simp [relpath, this]

/-- The result of `relpath` never starts with `/`. -/
theorem relpath_head? (p : PyStr) : (relpath p).head? ≠ some '/' := by
  induction p with
  | nil => simp [relpath]
  | cons c t ih =>
    by_cases hc : c = '/'
    · subst hc
      simpa [relpath] using ih
    · simp [relpath, hc]

/-- `lstrip("/")` of `/` followed by a string not starting with `/`. -/
theorem lstripSet_slash (s : PyStr) (h : s.head? ≠ some '/') :
    lstripSet ['/'] ('/' :: s) = s := by
  simp only [lstripSet, List.dropWhile_cons]
  rw [if_pos (by simp)]
  cases s with
  | nil => rfl
  | cons c t =>
    have hc : c ≠ '/' := by
      intro hc
      exact h (by rw [hc]; rfl)
    simp [List.dropWhile_cons, hc]

/-- No piece produced by `splitOnP (· == x)` contains `x`. -/
theorem mem_splitOnP_beq (x : Char) : ∀ (p : PyStr), ∀ s ∈ p.splitOnP (· == x), x ∉ s := by
  intro p
  induction p with
  | nil =>
    intro s hs
    simp only [List.splitOnP_nil, List.mem_singleton] at hs
    simp [hs]
  | cons c t ih =>
    intro s hs
    rw [List.splitOnP_cons] at hs
    by_cases hc : (c == x) = true
    · rw [if_pos hc] at hs
      rcases List.mem_cons.mp hs with h | h
      · simp [h]
      · exact ih s h
    · rw [if_neg hc] at hs
      rcases hsp : t.splitOnP (fun a => a == x) with _ | ⟨hd, tl⟩
      · exact absurd hsp (List.splitOnP_ne_nil _ t)
      · rw [hsp] at hs
        simp only [List.modifyHead] at hs
        rcases List.mem_cons.mp hs with h | h
        · subst h
          intro hmem
          rcases List.mem_cons.mp hmem with h | h
          · rw [h] at hc
            simp at hc
          · exact (ih hd (by rw [hsp]; exact List.mem_cons_self hd tl)) h
        · exact ih s (by rw [hsp]; exact List.mem_cons_of_mem hd h)

/-- No piece produced by splitting on `/` contains `/`. -/
theorem mem_splitOn_slash (p : PyStr) : ∀ s ∈ p.splitOn '/', '/' ∉ s :=
  mem_splitOnP_beq '/' p

/-- Processing only plain segments pushes each of them. -/
theorem normSegs_plain_push : ∀ (segs : List PyStr), (∀ s ∈ segs, plainSeg s) →
    ∀ acc, normSegs acc segs = some (acc.reverse ++ segs) := by
  intro segs
  induction segs with
  | nil =>
    intro _ acc
    simp [normSegs]
  | cons seg rest ih =>
    intro hplain acc
    obtain ⟨h1, h2, h3, _⟩ := hplain seg (List.mem_cons_self seg rest)
    simp only [normSegs]
    rw [if_neg (by simp [h1, h2]), if_neg h3]
    rw [ih (fun s hs => hplain s (List.mem_cons_of_mem seg hs)) (seg :: acc)]
    simp

/-- Every segment surviving `normSegs` on separator-free input is plain. -/
theorem normSegs_plain : ∀ (segs : List PyStr), (∀ s ∈ segs, '/' ∉ s) →
    ∀ (acc comps : List PyStr), (∀ s ∈ acc, plainSeg s) →
    normSegs acc segs = some comps → ∀ c ∈ comps, plainSeg c := by
  intro segs
  induction segs with
  | nil =>
    intro _ acc comps hacc h
    simp only [normSegs, Option.some.injEq] at h
    subst h
    intro c hc
    exact hacc c (List.mem_reverse.mp hc)
  | cons seg rest ih =>
    intro hsegs acc comps hacc h
    have hrest : ∀ s ∈ rest, '/' ∉ s := fun s hs => hsegs s (List.mem_cons_of_mem seg hs)
    simp only [normSegs] at h
    split_ifs at h with hskip hdd
    · exact ih hrest acc comps hacc h
    · cases acc with
      | nil => simp at h
      | cons a accTail =>
        exact ih hrest accTail comps
          (fun s hs => hacc s (List.mem_cons_of_mem a hs)) h
    · push_neg at hskip
      exact ih hrest (seg :: acc) comps
        (fun s hs => by
          rcases List.mem_cons.mp hs with h' | h'
          · rw [h']
            exact ⟨hskip.1, hskip.2, hdd, hsegs seg (List.mem_cons_self seg rest)⟩
          · exact hacc s h') h

/-- Joining a single piece with `/`. -/
theorem intercalate_slash_single (a : PyStr) : List.intercalate ['/'] [a] = a := by
  simp [List.intercalate]

/-- Joining at least two pieces with `/`. -/
theorem intercalate_slash_cons (a c : PyStr) (t : List PyStr) :
    List.intercalate ['/'] (a :: c :: t) = a ++ '/' :: List.intercalate ['/'] (c :: t) := by
  simp [List.intercalate, List.intersperse]

/-- Joining plain segments yields a string that does not start with `/`. -/
theorem head?_intercalate_plain (comps : List PyStr) (h : ∀ c ∈ comps, plainSeg c) :
    (List.intercalate ['/'] comps).head? ≠ some '/' := by
  cases comps with
  | nil => simp [List.intercalate]
  | cons a t =>
    obtain ⟨ha1, _, _, ha4⟩ := h a (List.mem_cons_self a t)
    cases a with
    | nil => exact absurd rfl ha1
    | cons x xs =>
      have hx : x ≠ '/' := by
        intro hxeq
        exact ha4 (by rw [← hxeq]; exact List.mem_cons_self x xs)
      cases t with
      | nil =>
        rw [intercalate_slash_single]
        simp [hx]
      | cons c tt =>
        rw [intercalate_slash_cons]
        simp [hx]

/-- normpath is the identity on a join of plain segments (the shape of its
own relative outputs). -/
theorem normpath_intercalate_plain (comps : List PyStr) (h : ∀ c ∈ comps, plainSeg c) :
    normpath (List.intercalate ['/'] comps) = some (List.intercalate ['/'] comps) := by
  cases comps with
  | nil => rfl
  | cons a t =>
    have hsplit : (List.intercalate ['/'] (a :: t)).splitOn '/' = a :: t :=
      List.splitOn_intercalate (a :: t) '/' (fun l hl => (h l hl).2.2.2) (by simp)
    unfold normpath
    rw [hsplit]
    rw [normSegs_plain_push (a :: t) h []]
    simp only [Option.map_some', List.reverse_nil, List.nil_append, Option.some.injEq]
    rw [if_neg (head?_intercalate_plain (a :: t) h)]
    simp

/-- The relative part of any normpath output is a join of plain segments,
and normpath is the identity on it. -/
theorem relpath_of_normpath (p n : PyStr) (h : normpath p = some n) :
    ∃ comps, (∀ c ∈ comps, plainSeg c) ∧ relpath n = List.intercalate ['/'] comps ∧
      normpath (relpath n) = some (relpath n) := by
  unfold normpath at h
  rcases hn : normSegs [] (p.splitOn '/') with _ | comps
  · rw [hn] at h
    simp at h
  · rw [hn] at h
    simp only [Option.map_some', Option.some.injEq] at h
    have hplain : ∀ c ∈ comps, plainSeg c :=
      normSegs_plain (p.splitOn '/') (mem_splitOn_slash p) [] comps (by simp) hn
    have hrel : relpath n = List.intercalate ['/'] comps := by
      rw [← h]
      by_cases hp : p.head? = some '/'
      · rw [if_pos hp]
        show relpath ('/' :: List.intercalate ['/'] comps) = _
        have hstep : relpath ('/' :: List.intercalate ['/'] comps) =
            relpath (List.intercalate ['/'] comps) := by
          simp [relpath]
        rw [hstep]
        exact relpath_eq_self _ (head?_intercalate_plain comps hplain)
      · rw [if_neg hp]
        simp only [List.nil_append]
        exact relpath_eq_self _ (head?_intercalate_plain comps hplain)
    refine ⟨comps, hplain, hrel, ?_⟩
    rw [hrel]
    exact normpath_intercalate_plain comps hplain

/-- C3 (amended): with the default scoped root `/` (whose computed prefix is
empty) and the default delimiter `/`, decoding an encoded path yields the
relative normalized form `relpath(normpath(p))`, and re-encoding any key the
codec produced yields the same key. -/
theorem path_key_roundtrip_amended (p n : PyStr) (h : normpath p = some n) :
    mkPrefix (pstr "/") = some [] ∧
    ∃ k, _path_to_key [] ['/'] p = .ok k ∧
      _key_to_path ['/'] k = relpath n ∧
      _path_to_key [] ['/'] (_key_to_path ['/'] k) = .ok k := by
  obtain ⟨comps, hplain, hrel, hidem⟩ := relpath_of_normpath p n h
  have hhead : (relpath n).head? ≠ some '/' := relpath_head? n
  have hkey : _path_to_key [] ['/'] p = .ok (relpath n) := by
    simp only [_path_to_key, h]
    rw [List.nil_append, lstripSet_slash (relpath n) hhead, pyReplace_slash_self]
  have hback : _key_to_path ['/'] (relpath n) = relpath n := pyReplace_slash_self (relpath n)
  refine ⟨rfl, relpath n, hkey, hback, ?_⟩
  rw [hback]
  simp only [_path_to_key, hidem]
  rw [List.nil_append, relpath_eq_self (relpath n) hhead,
    lstripSet_slash (relpath n) hhead, pyReplace_slash_self]

/-- C3 amended witness: the concrete path `/a/b` under the default
configuration. -/
theorem path_key_roundtrip_amended_witness :
    mkPrefix (pstr "/") = some [] ∧
    ∃ k, _path_to_key [] ['/'] (pstr "/a/b") = .ok k ∧
      _key_to_path ['/'] k = relpath (pstr "/a/b") ∧
      _path_to_key [] ['/'] (_key_to_path ['/'] k) = .ok k :=
  path_key_roundtrip_amended (pstr "/a/b") (pstr "/a/b") rfl

/-- C3 counterexample: with a non-empty scoped root (dir_path `/sub`, prefix
`sub`) the decode of an encode keeps the prefix, so it equals neither the
normalized form of the path nor its relative form, and re-encoding a
produced key prepends the prefix a second time; with a delimiter other than
`/` (here `#`) a path whose segment contains the delimiter decodes to a
different path; and even in the default configuration the decode of the
encode of `/a` is the relative `a`, not the normalized `/a`. -/
theorem path_key_roundtrip_counterexample :
    mkPrefix (pstr "/sub") = some (pstr "sub") ∧
    normpath (pstr "/a") = some (pstr "/a") ∧
    _path_to_key (pstr "sub") (pstr "/") (pstr "/a") = .ok (pstr "sub/a") ∧
    _key_to_path (pstr "/") (pstr "sub/a") = pstr "sub/a" ∧
    pstr "sub/a" ≠ pstr "/a" ∧
    pstr "sub/a" ≠ pstr "a" ∧
    _path_to_key (pstr "sub") (pstr "/") (_key_to_path (pstr "/") (pstr "sub/a")) =
      .ok (pstr "sub/sub/a") ∧
    pstr "sub/sub/a" ≠ pstr "sub/a" ∧
    mkPrefix (pstr "/") = some [] ∧
    normpath (pstr "/a#b") = some (pstr "/a#b") ∧
    _path_to_key [] (pstr "#") (pstr "/a#b") = .ok (pstr "a#b") ∧
    _key_to_path (pstr "#") (pstr "a#b") = pstr "a/b" ∧
    pstr "a/b" ≠ pstr "/a#b" ∧
    pstr "a/b" ≠ pstr "a#b" ∧
    _path_to_key [] (pstr "/") (pstr "/a") = .ok (pstr "a") ∧
    _key_to_path (pstr "/") (pstr "a") = pstr "a" ∧
    pstr "a" ≠ pstr "/a" := by decide
